import Mathlib

/-!
# Verification of the Authentication Orchestration Layer

Shallow embedding of the `auth_cognito` service (`cognitoAuth` in the Go
source) and of the domain input constructors (`domain/auth/outputs.go`),
together with theorems settling the specification claims about error
translation, workflow composition and username normalization.

The identity-provider client and the JWT verifier are external
collaborators: they are modelled as response functions supplied in the
service structure, exactly mirroring the calls the Go code makes.  A Go
`error` is either a typed domain `ApiError` (from `app_error.NewApiError`)
or the raw provider failure, whose `Error()` text is the signal string the
code matches with `strings.Contains`.
-/

namespace AuthCognito

/-- Go `strings.Contains s sub`: `sub` occurs as a contiguous substring of
`s`.  Modelled as list infix on the character data. -/
def strContains (s sub : String) : Bool :=
  decide (sub.data <:+: s.data)

/-- Go `strings.ToLower`: lower-cases every character (character-wise
mapping over the string's data). -/
def strToLower (s : String) : String :=
  ⟨s.data.map Char.toLower⟩

/-- A Go `error` value as the service produces it: either a typed domain
error built by `app_error.NewApiError(code, message)`, or the raw error
returned by the provider client (its `Error()` text is the signal). -/
inductive GoError where
  | apiError (code : Nat) (message : String)
  | raw (signal : String)
deriving DecidableEq, Repr

/-- Domain error status classes (spec: Unauthorized, NotFound, Conflict,
BadRequest, Internal). -/
inductive StatusClass where
  | Unauthorized
  | NotFound
  | Conflict
  | BadRequest
  | Internal
deriving DecidableEq, Repr

/-- Status class of an HTTP status code (401 Unauthorized, 404 NotFound,
409 Conflict, 400 BadRequest, anything else Internal). -/
def statusClassOfCode (code : Nat) : StatusClass :=
  if code = 401 then .Unauthorized
  else if code = 404 then .NotFound
  else if code = 409 then .Conflict
  else if code = 400 then .BadRequest
  else .Internal

/-- Modelled from the spec: the status class under which an error reaches
the caller.  The `app_error` package and the HTTP handlers are not under
`src/`; the spec (§6, §7) states that a typed `ApiError` carries its
status code's class and that an unclassified (raw) provider failure "is
logged ... and returned as a generic Internal error". -/
def GoError.statusClass : GoError → StatusClass
  | .apiError code _ => statusClassOfCode code
  | .raw _ => .Internal

/-- Whether an error is one of the specific typed domain errors (an
`ApiError` built by the service), as opposed to a raw provider failure. -/
def GoError.isTyped : GoError → Bool
  | .apiError _ _ => true
  | .raw _ => false

/-- Result of a Go function returning `(*T, error)`: the pair of the
(possibly nil) output pointer and the (possibly nil) error — or a runtime
panic (nil-pointer dereference / index out of range). -/
inductive Outcome (α : Type) where
  | ret (out : Option α) (err : Option GoError)
  | panicked
deriving DecidableEq, Repr

/-! ## Provider request/response shapes (AWS Cognito SDK types used) -/

/-- `cognito.InitiateAuthInput`. -/
structure InitiateAuthRequest where
  authFlow : String
  authParameters : List (String × String)
  clientId : String
deriving DecidableEq, Repr

/-- `types.AttributeType`: a user attribute with nullable name/value. -/
structure AttributeType where
  name : Option String
  value : Option String
deriving DecidableEq, Repr

/-- `cognito.SignUpInput`. -/
structure SignUpRequest where
  clientId : String
  username : String
  password : String
  userAttributes : List AttributeType
deriving DecidableEq, Repr

/-- `cognito.ConfirmSignUpInput`. -/
structure ConfirmSignUpRequest where
  clientId : String
  username : String
  confirmationCode : String
deriving DecidableEq, Repr

/-- `cognito.GetUserInput`. -/
structure GetUserRequest where
  accessToken : String
deriving DecidableEq, Repr

/-- `cognito.AdminAddUserToGroupInput` / `AdminRemoveUserFromGroupInput`. -/
structure AdminGroupRequest where
  userPoolId : String
  username : String
  groupName : String
deriving DecidableEq, Repr

/-- `cognito.AdminCreateUserInput`. -/
structure AdminCreateUserRequest where
  userPoolId : String
  username : String
  userAttributes : List AttributeType
  temporaryPassword : String
  desiredDeliveryMediums : List String
  forceAliasCreation : Bool
deriving DecidableEq, Repr

/-- `types.AuthenticationResultType`: token fields are nullable pointers. -/
structure AuthenticationResultType where
  accessToken : Option String
  refreshToken : Option String
  idToken : Option String
deriving DecidableEq, Repr

/-- `cognito.InitiateAuthOutput`: on a challenge (e.g. forced password
change) `authenticationResult` is nil and a challenge name is set. -/
structure InitiateAuthResponse where
  authenticationResult : Option AuthenticationResultType
  challengeName : Option String
deriving DecidableEq, Repr

/-- `cognito.SignUpOutput`. -/
structure SignUpResponse where
  userConfirmed : Bool
deriving DecidableEq, Repr

/-- `cognito.GetUserOutput`: username is a nullable pointer; the attribute
list may be empty. -/
structure GetUserResponse where
  username : Option String
  userAttributes : List AttributeType
deriving DecidableEq, Repr

/-- The provider calls the service can issue, with the exact request each
carried.  `adminDeleteUser` is the provider's identity-deletion call: the
service never issues it (no rollback), which the trace theorems state. -/
inductive ProviderCall where
  | initiateAuth (req : InitiateAuthRequest)
  | signUp (req : SignUpRequest)
  | confirmSignUp (req : ConfirmSignUpRequest)
  | getUser (req : GetUserRequest)
  | adminAddUserToGroup (req : AdminGroupRequest)
  | adminRemoveUserFromGroup (req : AdminGroupRequest)
  | adminCreateUser (req : AdminCreateUserRequest)
  | adminDeleteUser (username : String)
deriving DecidableEq, Repr

/-- The username argument a provider call carries, when it has one. -/
def ProviderCall.usernameArg : ProviderCall → Option String
  | .initiateAuth _ => none
  | .signUp req => some req.username
  | .confirmSignUp req => some req.username
  | .getUser _ => none
  | .adminAddUserToGroup req => some req.username
  | .adminRemoveUserFromGroup req => some req.username
  | .adminCreateUser req => some req.username
  | .adminDeleteUser u => some u

/-- The identity-provider client, an external collaborator: one response
function per operation the service uses.  A `.error s` result stands for a
provider failure whose `Error()` text is `s`. -/
structure CognitoClient where
  initiateAuth : InitiateAuthRequest → Except String InitiateAuthResponse
  signUp : SignUpRequest → Except String SignUpResponse
  confirmSignUp : ConfirmSignUpRequest → Except String Unit
  getUser : GetUserRequest → Except String GetUserResponse
  adminAddUserToGroup : AdminGroupRequest → Except String Unit
  adminRemoveUserFromGroup : AdminGroupRequest → Except String Unit
  adminCreateUser : AdminCreateUserRequest → Except String Unit
  adminDeleteUser : String → Except String Unit

/-! ## Domain model (`domain/auth`) -/

/-- `auth.UserGroup` with its two constants `Admin = "Admin"`,
`User = "User"`. -/
inductive UserGroup where
  | Admin
  | User
deriving DecidableEq, Repr

/-- Go `string(g)` on the `UserGroup` string type. -/
def UserGroup.str : UserGroup → String
  | .Admin => "Admin"
  | .User => "User"

/-- `auth.Claims`. -/
structure Claims where
  Email : String
  Id : String
  UserGroups : List String
deriving DecidableEq, Repr

/-- The structured claims the JWT verifier yields (`jwt_verify` package:
email, subject, cognito groups). -/
structure VerifierClaims where
  Email : String
  Sub : String
  UserGroups : List String
deriving DecidableEq, Repr

structure LoginInput where
  Username : String
  Password : String
deriving DecidableEq, Repr

/-- `auth.NewLoginInput`: lower-cases the username. -/
def NewLoginInput (username password : String) : LoginInput :=
  { Username := strToLower username, Password := password }

structure LoginOutput where
  AccessToken : String
  IdToken : String
  RefreshToken : String
deriving DecidableEq, Repr

structure SignUpInput where
  Username : String
  Password : String
  Name : String
deriving DecidableEq, Repr

/-- `auth.NewSignUpInput`: lower-cases the username. -/
def NewSignUpInput (username password name : String) : SignUpInput :=
  { Username := strToLower username, Password := password, Name := name }

structure SignUpOutput where
  IsConfirmed : Bool
deriving DecidableEq, Repr

structure ConfirmSignUpInput where
  Username : String
  Code : String
deriving DecidableEq, Repr

/-- `auth.NewConfirmSignUpInput`: lower-cases the username. -/
def NewConfirmSignUpInput (username code : String) : ConfirmSignUpInput :=
  { Username := strToLower username, Code := code }

structure ConfirmSignUpOutput where
deriving DecidableEq, Repr

structure GetUserInput where
  AccessToken : String
deriving DecidableEq, Repr

/-- `auth.NewGetUserInput`. -/
def NewGetUserInput (accessToken : String) : GetUserInput :=
  { AccessToken := accessToken }

structure GetUserOutput where
  Username : String
  Name : String
deriving DecidableEq, Repr

structure RefreshTokenInput where
  RefreshToken : String
deriving DecidableEq, Repr

/-- `auth.NewRefreshTokenInput`. -/
def NewRefreshTokenInput (refreshToken : String) : RefreshTokenInput :=
  { RefreshToken := refreshToken }

structure RefreshTokenOutput where
  AccessToken : String
  IdToken : String
deriving DecidableEq, Repr

/-- `auth.AddGroupInput` — note: the source defines no constructor for it
(no lower-casing on construction). -/
structure AddGroupInput where
  Username : String
  GroupName : UserGroup
deriving DecidableEq, Repr

/-- `auth.RemoveGroupInput` — likewise, no constructor in the source. -/
structure RemoveGroupInput where
  Username : String
  GroupName : UserGroup
deriving DecidableEq, Repr

structure CreateAdminInput where
  Password : String
  Name : String
  Username : String
deriving DecidableEq, Repr

/-- `auth.NewCreateAdminInput`: lower-cases the username. -/
def NewCreateAdminInput (username password name : String) : CreateAdminInput :=
  { Password := password, Name := name, Username := strToLower username }

structure CreateAdminOutput where
  Username : String
deriving DecidableEq, Repr

/-! ## The service (`auth_cognito.cognitoAuth`)

Each operation returns its Go result together with the list of provider
calls it issued, in order.  Logging is a pure side effect in the source
and is not modelled. -/

structure cognitoAuth where
  client : CognitoClient
  clientId : String
  userPoolId : String
  parseJWT : String → Except GoError VerifierClaims

/-- The `cognito.InitiateAuthInput` Login builds. -/
def cognitoAuth.loginRequest (c : cognitoAuth) (input : LoginInput) :
    InitiateAuthRequest :=
  { authFlow := "USER_PASSWORD_AUTH"
  , authParameters := [("USERNAME", input.Username), ("PASSWORD", input.Password)]
  , clientId := c.clientId }

/-- `cognitoAuth.Login`. -/
def cognitoAuth.Login (c : cognitoAuth) (input : LoginInput) :
    Outcome LoginOutput × List ProviderCall :=
  let req := c.loginRequest input
  match c.client.initiateAuth req with
  | .error errorType =>
    if strContains errorType "NotAuthorizedException" then
      (.ret none (some (.apiError 401 "Invalid username or password")), [.initiateAuth req])
    else if strContains errorType "PasswordResetRequiredException" then
      (.ret none (some (.apiError 401 "Password reset required")), [.initiateAuth req])
    else if strContains errorType "UserNotConfirmedException" then
      (.ret none (some (.apiError 401 "User not confirmed")), [.initiateAuth req])
    else
      (.ret none (some (.raw errorType)), [.initiateAuth req])
  | .ok cognitoOut =>
    match cognitoOut.authenticationResult with
    | none => (.panicked, [.initiateAuth req])
    | some ar =>
      match ar.accessToken, ar.refreshToken, ar.idToken with
      | some acc, some ref, some idt =>
        (.ret (some { AccessToken := acc, RefreshToken := ref, IdToken := idt }) none,
         [.initiateAuth req])
      | _, _, _ => (.panicked, [.initiateAuth req])

/-- The `cognito.AdminAddUserToGroupInput` AddGroup builds. -/
def cognitoAuth.addGroupRequest (c : cognitoAuth) (input : AddGroupInput) :
    AdminGroupRequest :=
  { userPoolId := c.userPoolId
  , username := input.Username
  , groupName := input.GroupName.str }

/-- `cognitoAuth.AddGroup` (returns only an error in Go). -/
def cognitoAuth.AddGroup (c : cognitoAuth) (input : AddGroupInput) :
    Option GoError × List ProviderCall :=
  let req := c.addGroupRequest input
  match c.client.adminAddUserToGroup req with
  | .error errorType =>
    if strContains errorType "UserNotFoundException" then
      (some (.apiError 404 "User not found"), [.adminAddUserToGroup req])
    else if strContains errorType "ResourceNotFoundException" then
      (some (.apiError 404 "Group not found"), [.adminAddUserToGroup req])
    else
      (some (.raw errorType), [.adminAddUserToGroup req])
  | .ok _ => (none, [.adminAddUserToGroup req])

/-- The `cognito.AdminRemoveUserFromGroupInput` RemoveGroup builds. -/
def cognitoAuth.removeGroupRequest (c : cognitoAuth) (input : RemoveGroupInput) :
    AdminGroupRequest :=
  { userPoolId := c.userPoolId
  , username := input.Username
  , groupName := input.GroupName.str }

/-- `cognitoAuth.RemoveGroup`. -/
def cognitoAuth.RemoveGroup (c : cognitoAuth) (input : RemoveGroupInput) :
    Option GoError × List ProviderCall :=
  let req := c.removeGroupRequest input
  match c.client.adminRemoveUserFromGroup req with
  | .error errorType =>
    if strContains errorType "UserNotFoundException" then
      (some (.apiError 404 "User not found"), [.adminRemoveUserFromGroup req])
    else if strContains errorType "ResourceNotFoundException" then
      (some (.apiError 404 "Group not found"), [.adminRemoveUserFromGroup req])
    else
      (some (.raw errorType), [.adminRemoveUserFromGroup req])
  | .ok _ => (none, [.adminRemoveUserFromGroup req])

/-- The `cognito.SignUpInput` SignUp builds (email and name attributes,
email set to the username). -/
def cognitoAuth.signUpRequest (c : cognitoAuth) (input : SignUpInput) :
    SignUpRequest :=
  { clientId := c.clientId
  , username := input.Username
  , password := input.Password
  , userAttributes :=
      [ { name := some "email", value := some input.Username }
      , { name := some "name", value := some input.Name } ] }

/-- `cognitoAuth.SignUp`: create the identity, then unconditionally add
the `User` group; a group-assignment failure is returned as the SignUp
error with no rollback of the created identity. -/
def cognitoAuth.SignUp (c : cognitoAuth) (input : SignUpInput) :
    Outcome SignUpOutput × List ProviderCall :=
  let req := c.signUpRequest input
  match c.client.signUp req with
  | .error errorType =>
    if strContains errorType "UsernameExistsException" then
      (.ret none (some (.apiError 409 "Username already exists")), [.signUp req])
    else
      (.ret none (some (.raw errorType)), [.signUp req])
  | .ok cognitoOut =>
    let groupRes := c.AddGroup { Username := input.Username, GroupName := .User }
    match groupRes.1 with
    | some e => (.ret none (some e), .signUp req :: groupRes.2)
    | none =>
      (.ret (some { IsConfirmed := cognitoOut.userConfirmed }) none,
       .signUp req :: groupRes.2)

/-- The `cognito.ConfirmSignUpInput` ConfirmSignUp builds. -/
def cognitoAuth.confirmSignUpRequest (c : cognitoAuth) (input : ConfirmSignUpInput) :
    ConfirmSignUpRequest :=
  { clientId := c.clientId, username := input.Username, confirmationCode := input.Code }

/-- `cognitoAuth.ConfirmSignUp`. -/
def cognitoAuth.ConfirmSignUp (c : cognitoAuth) (input : ConfirmSignUpInput) :
    Outcome ConfirmSignUpOutput × List ProviderCall :=
  let req := c.confirmSignUpRequest input
  match c.client.confirmSignUp req with
  | .error errorType =>
    if strContains errorType "CodeMismatchException" then
      (.ret none (some (.apiError 400 "Invalid confirmation code")), [.confirmSignUp req])
    else if strContains errorType "ExpiredCodeException" then
      (.ret none (some (.apiError 400 "Confirmation code expired")), [.confirmSignUp req])
    else
      (.ret none (some (.raw errorType)), [.confirmSignUp req])
  | .ok _ => (.ret (some {}) none, [.confirmSignUp req])

/-- `cognitoAuth.GetUser`: on provider success it dereferences the
username pointer and the first attribute's value pointer — panicking when
the username is nil, the attribute list is empty, or the first value is
nil. -/
def cognitoAuth.GetUser (c : cognitoAuth) (input : GetUserInput) :
    Outcome GetUserOutput × List ProviderCall :=
  let req : GetUserRequest := { accessToken := input.AccessToken }
  match c.client.getUser req with
  | .error errorType =>
    if strContains errorType "NotAuthorizedException" then
      (.ret none (some (.apiError 401 "Invalid access token")), [.getUser req])
    else if strContains errorType "UserNotFoundException" then
      (.ret none (some (.apiError 404 "User not found")), [.getUser req])
    else
      (.ret none (some (.raw errorType)), [.getUser req])
  | .ok cognitoOut =>
    match cognitoOut.username with
    | none => (.panicked, [.getUser req])
    | some u =>
      match cognitoOut.userAttributes with
      | [] => (.panicked, [.getUser req])
      | attr :: _ =>
        match attr.value with
        | none => (.panicked, [.getUser req])
        | some v => (.ret (some { Username := u, Name := v }) none, [.getUser req])

/-- `cognitoAuth.ValidateToken`: delegates to the verifier; wraps its
claims, propagates its failure unchanged.  Issues no provider call. -/
def cognitoAuth.ValidateToken (c : cognitoAuth) (token : String) :
    Outcome Claims :=
  match c.parseJWT token with
  | .error e => .ret none (some e)
  | .ok claims =>
    .ret (some { Email := claims.Email, Id := claims.Sub, UserGroups := claims.UserGroups })
        none

/-- The `cognito.InitiateAuthInput` RefreshToken builds. -/
def cognitoAuth.refreshRequest (c : cognitoAuth) (input : RefreshTokenInput) :
    InitiateAuthRequest :=
  { authFlow := "REFRESH_TOKEN_AUTH"
  , authParameters := [("REFRESH_TOKEN", input.RefreshToken)]
  , clientId := c.clientId }

/-- `cognitoAuth.RefreshToken`. -/
def cognitoAuth.RefreshToken (c : cognitoAuth) (input : RefreshTokenInput) :
    Outcome RefreshTokenOutput × List ProviderCall :=
  let req := c.refreshRequest input
  match c.client.initiateAuth req with
  | .error errorType =>
    if strContains errorType "NotAuthorizedException" then
      (.ret none (some (.apiError 401 "Invalid refresh token")), [.initiateAuth req])
    else
      (.ret none (some (.raw errorType)), [.initiateAuth req])
  | .ok cognitoOut =>
    match cognitoOut.authenticationResult with
    | none => (.panicked, [.initiateAuth req])
    | some ar =>
      match ar.accessToken, ar.idToken with
      | some acc, some idt =>
        (.ret (some { AccessToken := acc, IdToken := idt }) none, [.initiateAuth req])
      | _, _ => (.panicked, [.initiateAuth req])

/-- The `cognito.AdminCreateUserInput` CreateAdmin builds. -/
def cognitoAuth.createAdminRequest (c : cognitoAuth) (input : CreateAdminInput) :
    AdminCreateUserRequest :=
  { userPoolId := c.userPoolId
  , username := input.Username
  , userAttributes :=
      [ { name := some "email", value := some input.Username }
      , { name := some "name", value := some input.Name } ]
  , temporaryPassword := input.Password
  , desiredDeliveryMediums := ["EMAIL"]
  , forceAliasCreation := true }

/-- `cognitoAuth.CreateAdmin`: create the identity with a temporary
password, then add the `Admin` group; same no-rollback composition as
SignUp. -/
def cognitoAuth.CreateAdmin (c : cognitoAuth) (input : CreateAdminInput) :
    Outcome CreateAdminOutput × List ProviderCall :=
  let req := c.createAdminRequest input
  match c.client.adminCreateUser req with
  | .error errorType =>
    if strContains errorType "UsernameExistsException" then
      (.ret none (some (.apiError 409 "Username already exists")), [.adminCreateUser req])
    else
      (.ret none (some (.raw errorType)), [.adminCreateUser req])
  | .ok _ =>
    let groupRes := c.AddGroup { Username := input.Username, GroupName := .Admin }
    match groupRes.1 with
    | some e => (.ret none (some e), .adminCreateUser req :: groupRes.2)
    | none =>
      (.ret (some { Username := input.Username }) none, .adminCreateUser req :: groupRes.2)

/-! ## Concrete test fixtures -/

/-- A client that fails every call with the same signal text. -/
def failingClient (s : String) : CognitoClient :=
  { initiateAuth := fun _ => .error s
  , signUp := fun _ => .error s
  , confirmSignUp := fun _ => .error s
  , getUser := fun _ => .error s
  , adminAddUserToGroup := fun _ => .error s
  , adminRemoveUserFromGroup := fun _ => .error s
  , adminCreateUser := fun _ => .error s
  , adminDeleteUser := fun _ => .error s }

/-- A client whose every call succeeds with fixed, fully-populated
payloads. -/
def okClient : CognitoClient :=
  { initiateAuth := fun _ =>
      .ok { authenticationResult :=
              some { accessToken := some "acc", refreshToken := some "ref", idToken := some "idt" }
          , challengeName := none }
  , signUp := fun _ => .ok { userConfirmed := true }
  , confirmSignUp := fun _ => .ok ()
  , getUser := fun _ =>
      .ok { username := some "user1"
          , userAttributes := [{ name := some "email", value := some "user1@example.com" }] }
  , adminAddUserToGroup := fun _ => .ok ()
  , adminRemoveUserFromGroup := fun _ => .ok ()
  , adminCreateUser := fun _ => .ok ()
  , adminDeleteUser := fun _ => .ok () }

/-- A client where identity creation succeeds but group assignment fails
with an unclassified signal. -/
def groupFailClient (s : String) : CognitoClient :=
  { okClient with adminAddUserToGroup := fun _ => .error s }

/-- A client whose InitiateAuth succeeds with a challenge (forced password
change): no authentication result. -/
def challengeClient : CognitoClient :=
  { okClient with
      initiateAuth := fun _ =>
        .ok { authenticationResult := none, challengeName := some "NEW_PASSWORD_REQUIRED" } }

/-- A service instance over a given client. -/
def mkAuth (cl : CognitoClient) : cognitoAuth :=
  { client := cl
  , clientId := "client-1"
  , userPoolId := "pool-1"
  , parseJWT := fun _ => .error (.raw "no verifier") }

/-! ## Claim theorems -/

/-- **C5.** For every Login input, when the provider call fails with a
signal carrying the not-authorized exception, Login returns the
Unauthorized error "Invalid username or password"; with the
password-reset-required exception (and not the earlier-matched one), the
Unauthorized error "Password reset required"; with the user-not-confirmed
exception (and neither earlier one), the Unauthorized error "User not
confirmed" — in each case a 401-class error, never an Internal-class one.
The negative side conditions reflect that the source checks the signals in
this order; a real provider failure signal carries exactly one exception
name. -/
theorem C5_login_allowlisted_signals
    (c : cognitoAuth) (input : LoginInput) (s : String)
    (h : c.client.initiateAuth (c.loginRequest input) = .error s) :
    (strContains s "NotAuthorizedException" = true →
      (c.Login input).1 = .ret none (some (.apiError 401 "Invalid username or password")) ∧
      (GoError.apiError 401 "Invalid username or password").statusClass = .Unauthorized) ∧
    (strContains s "NotAuthorizedException" = false →
     strContains s "PasswordResetRequiredException" = true →
      (c.Login input).1 = .ret none (some (.apiError 401 "Password reset required")) ∧
      (GoError.apiError 401 "Password reset required").statusClass = .Unauthorized) ∧
    (strContains s "NotAuthorizedException" = false →
     strContains s "PasswordResetRequiredException" = false →
     strContains s "UserNotConfirmedException" = true →
      (c.Login input).1 = .ret none (some (.apiError 401 "User not confirmed")) ∧
      (GoError.apiError 401 "User not confirmed").statusClass = .Unauthorized) := by
  refine ⟨fun h1 => ?_, fun h1 h2 => ?_, fun h1 h2 h3 => ?_⟩
  · simp [cognitoAuth.Login, h, h1, GoError.statusClass, statusClassOfCode]
  · simp [cognitoAuth.Login, h, h1, h2, GoError.statusClass, statusClassOfCode]
  · simp [cognitoAuth.Login, h, h1, h2, h3, GoError.statusClass, statusClassOfCode]

/-- Witness for C5 at concrete signals and a concrete client. -/
theorem C5_login_allowlisted_signals_witness :
    ((mkAuth (failingClient "NotAuthorizedException: bad")).Login
        { Username := "u", Password := "p" }).1
      = .ret none (some (.apiError 401 "Invalid username or password")) ∧
    ((mkAuth (failingClient "PasswordResetRequiredException: reset")).Login
        { Username := "u", Password := "p" }).1
      = .ret none (some (.apiError 401 "Password reset required")) ∧
    ((mkAuth (failingClient "UserNotConfirmedException: unconfirmed")).Login
        { Username := "u", Password := "p" }).1
      = .ret none (some (.apiError 401 "User not confirmed")) :=
  ⟨((C5_login_allowlisted_signals (mkAuth (failingClient "NotAuthorizedException: bad"))
      { Username := "u", Password := "p" } _ rfl).1 (by decide)).1,
   ((C5_login_allowlisted_signals (mkAuth (failingClient "PasswordResetRequiredException: reset"))
      { Username := "u", Password := "p" } _ rfl).2.1 (by decide) (by decide)).1,
   ((C5_login_allowlisted_signals (mkAuth (failingClient "UserNotConfirmedException: unconfirmed"))
      { Username := "u", Password := "p" } _ rfl).2.2 (by decide) (by decide) (by decide)).1⟩

/-- **C6.** When identity creation fails with a username-exists signal,
SignUp returns the Conflict error "Username already exists" and never
issues the group-assignment provider call. -/
theorem C6_signup_username_exists_conflict
    (c : cognitoAuth) (input : SignUpInput) (s : String)
    (h : c.client.signUp (c.signUpRequest input) = .error s)
    (h1 : strContains s "UsernameExistsException" = true) :
    (c.SignUp input).1 = .ret none (some (.apiError 409 "Username already exists")) ∧
    (GoError.apiError 409 "Username already exists").statusClass = .Conflict ∧
    ∀ req : AdminGroupRequest, ProviderCall.adminAddUserToGroup req ∉ (c.SignUp input).2 := by
  refine ⟨?_, by simp [GoError.statusClass, statusClassOfCode], ?_⟩
  · simp [cognitoAuth.SignUp, h, h1]
  · intro req
    simp [cognitoAuth.SignUp, h, h1]

/-- Witness for C6 at a concrete client failing with a username-exists
signal. -/
theorem C6_signup_username_exists_conflict_witness :
    ((mkAuth (failingClient "UsernameExistsException: dup")).SignUp
        { Username := "u", Password := "p", Name := "n" }).1
      = .ret none (some (.apiError 409 "Username already exists")) ∧
    ∀ req : AdminGroupRequest,
      ProviderCall.adminAddUserToGroup req ∉
        ((mkAuth (failingClient "UsernameExistsException: dup")).SignUp
          { Username := "u", Password := "p", Name := "n" }).2 :=
  ⟨(C6_signup_username_exists_conflict (mkAuth (failingClient "UsernameExistsException: dup"))
      { Username := "u", Password := "p", Name := "n" } _ rfl (by decide)).1,
   (C6_signup_username_exists_conflict (mkAuth (failingClient "UsernameExistsException: dup"))
      { Username := "u", Password := "p", Name := "n" } _ rfl (by decide)).2.2⟩

/-- **C9.** AddGroup and RemoveGroup both translate a user-not-found
provider signal to NotFound "User not found" and a resource-not-found
signal (checked second in the source) to NotFound "Group not found". -/
theorem C9_group_ops_notfound_mapping
    (c : cognitoAuth) (ain : AddGroupInput) (rin : RemoveGroupInput) (s t : String) :
    (c.client.adminAddUserToGroup (c.addGroupRequest ain) = .error s →
      (strContains s "UserNotFoundException" = true →
        (c.AddGroup ain).1 = some (.apiError 404 "User not found")) ∧
      (strContains s "UserNotFoundException" = false →
       strContains s "ResourceNotFoundException" = true →
        (c.AddGroup ain).1 = some (.apiError 404 "Group not found"))) ∧
    (c.client.adminRemoveUserFromGroup (c.removeGroupRequest rin) = .error t →
      (strContains t "UserNotFoundException" = true →
        (c.RemoveGroup rin).1 = some (.apiError 404 "User not found")) ∧
      (strContains t "UserNotFoundException" = false →
       strContains t "ResourceNotFoundException" = true →
        (c.RemoveGroup rin).1 = some (.apiError 404 "Group not found"))) := by
  refine ⟨fun h => ⟨fun h1 => ?_, fun h1 h2 => ?_⟩, fun h => ⟨fun h1 => ?_, fun h1 h2 => ?_⟩⟩
  · simp [cognitoAuth.AddGroup, h, h1]
  · simp [cognitoAuth.AddGroup, h, h1, h2]
  · simp [cognitoAuth.RemoveGroup, h, h1]
  · simp [cognitoAuth.RemoveGroup, h, h1, h2]

/-- Witness for C9 at concrete clients failing with user-not-found and
resource-not-found signals. -/
theorem C9_group_ops_notfound_mapping_witness :
    ((mkAuth (failingClient "UserNotFoundException: gone")).AddGroup
        { Username := "u", GroupName := .User }).1
      = some (.apiError 404 "User not found") ∧
    ((mkAuth (failingClient "ResourceNotFoundException: gone")).AddGroup
        { Username := "u", GroupName := .User }).1
      = some (.apiError 404 "Group not found") ∧
    ((mkAuth (failingClient "UserNotFoundException: gone")).RemoveGroup
        { Username := "u", GroupName := .Admin }).1
      = some (.apiError 404 "User not found") ∧
    ((mkAuth (failingClient "ResourceNotFoundException: gone")).RemoveGroup
        { Username := "u", GroupName := .Admin }).1
      = some (.apiError 404 "Group not found") :=
  ⟨((C9_group_ops_notfound_mapping (mkAuth (failingClient "UserNotFoundException: gone"))
      { Username := "u", GroupName := .User } { Username := "u", GroupName := .Admin }
      "UserNotFoundException: gone" "UserNotFoundException: gone").1 rfl).1 (by decide),
   ((C9_group_ops_notfound_mapping (mkAuth (failingClient "ResourceNotFoundException: gone"))
      { Username := "u", GroupName := .User } { Username := "u", GroupName := .Admin }
      "ResourceNotFoundException: gone" "ResourceNotFoundException: gone").1 rfl).2
      (by decide) (by decide),
   ((C9_group_ops_notfound_mapping (mkAuth (failingClient "UserNotFoundException: gone"))
      { Username := "u", GroupName := .User } { Username := "u", GroupName := .Admin }
      "UserNotFoundException: gone" "UserNotFoundException: gone").2 rfl).1 (by decide),
   ((C9_group_ops_notfound_mapping (mkAuth (failingClient "ResourceNotFoundException: gone"))
      { Username := "u", GroupName := .User } { Username := "u", GroupName := .Admin }
      "ResourceNotFoundException: gone" "ResourceNotFoundException: gone").2 rfl).2
      (by decide) (by decide)⟩

/-- **C8.** When the refresh exchange fails with a not-authorized signal,
RefreshToken returns the Unauthorized error "Invalid refresh token"; and
whenever RefreshToken returns an error, the output pointer is nil — a
failure never carries a (partially populated) success output. -/
theorem C8_refresh_token_failure
    (c : cognitoAuth) (input : RefreshTokenInput) :
    (∀ s, c.client.initiateAuth (c.refreshRequest input) = .error s →
      strContains s "NotAuthorizedException" = true →
      (c.RefreshToken input).1 = .ret none (some (.apiError 401 "Invalid refresh token")) ∧
      (GoError.apiError 401 "Invalid refresh token").statusClass = .Unauthorized) ∧
    (∀ o e, (c.RefreshToken input).1 = .ret o (some e) → o = none) := by
  constructor
  · intro s h h1
    simp [cognitoAuth.RefreshToken, h, h1, GoError.statusClass, statusClassOfCode]
  · intro o e h
    simp only [cognitoAuth.RefreshToken] at h
    cases hresp : c.client.initiateAuth (c.refreshRequest input) with
    | error s =>
      simp only [hresp] at h
      by_cases h1 : strContains s "NotAuthorizedException" = true
      · simp [h1] at h
        exact h.1.symm
      · simp [eq_false_of_ne_true h1] at h
        exact h.1.symm
    | ok out =>
      simp only [hresp] at h
      cases har : out.authenticationResult with
      | none => simp [har] at h
      | some ar =>
        cases hacc : ar.accessToken with
        | none => simp [har, hacc] at h
        | some acc =>
          cases hidt : ar.idToken with
          | none => simp [har, hacc, hidt] at h
          | some idt => simp [har, hacc, hidt] at h

/-- Witness for C8 at a concrete client failing with a not-authorized
signal. -/
theorem C8_refresh_token_failure_witness :
    ((mkAuth (failingClient "NotAuthorizedException: revoked")).RefreshToken
        { RefreshToken := "r" }).1
      = .ret none (some (.apiError 401 "Invalid refresh token")) ∧
    ∀ o e,
      ((mkAuth (failingClient "NotAuthorizedException: revoked")).RefreshToken
          { RefreshToken := "r" }).1 = .ret o (some e) → o = none :=
  ⟨((C8_refresh_token_failure (mkAuth (failingClient "NotAuthorizedException: revoked"))
      { RefreshToken := "r" }).1 _ rfl (by decide)).1,
   (C8_refresh_token_failure (mkAuth (failingClient "NotAuthorizedException: revoked"))
      { RefreshToken := "r" }).2⟩

/-- AddGroup always issues exactly one provider call, carrying the input's
username verbatim. -/
theorem cognitoAuth.AddGroup_trace (c : cognitoAuth) (i : AddGroupInput) :
    (c.AddGroup i).2 = [.adminAddUserToGroup (c.addGroupRequest i)] := by
  simp only [cognitoAuth.AddGroup]
  cases hx : c.client.adminAddUserToGroup (c.addGroupRequest i) with
  | error s =>
    simp only [hx]
    split_ifs <;> rfl
  | ok u => simp [hx]

/-- RemoveGroup always issues exactly one provider call, carrying the
input's username verbatim. -/
theorem cognitoAuth.RemoveGroup_trace (c : cognitoAuth) (i : RemoveGroupInput) :
    (c.RemoveGroup i).2 = [.adminRemoveUserFromGroup (c.removeGroupRequest i)] := by
  simp only [cognitoAuth.RemoveGroup]
  cases hx : c.client.adminRemoveUserFromGroup (c.removeGroupRequest i) with
  | error s =>
    simp only [hx]
    split_ifs <;> rfl
  | ok u => simp [hx]

/-- **C2.** When identity creation succeeds, SignUp unconditionally issues
the AddGroup provider call with group `User` for the input's username; a
group-assignment failure is returned as the SignUp failure, a
group-assignment success yields the success output — and in either case
the trace holds no identity-deletion call (no rollback of the created
identity). -/
theorem C2_signup_group_assignment_no_rollback
    (c : cognitoAuth) (input : SignUpInput) (sout : SignUpResponse)
    (h : c.client.signUp (c.signUpRequest input) = .ok sout) :
    ProviderCall.adminAddUserToGroup
        (c.addGroupRequest { Username := input.Username, GroupName := .User })
      ∈ (c.SignUp input).2 ∧
    (∀ e, (c.AddGroup { Username := input.Username, GroupName := .User }).1 = some e →
      (c.SignUp input).1 = .ret none (some e)) ∧
    ((c.AddGroup { Username := input.Username, GroupName := .User }).1 = none →
      (c.SignUp input).1 = .ret (some { IsConfirmed := sout.userConfirmed }) none) ∧
    (∀ u, ProviderCall.adminDeleteUser u ∉ (c.SignUp input).2) := by
  have htr := cognitoAuth.AddGroup_trace c { Username := input.Username, GroupName := .User }
  refine ⟨?_, fun e he => ?_, fun hn => ?_, fun u => ?_⟩
  · simp only [cognitoAuth.SignUp, h]
    cases hg : (c.AddGroup { Username := input.Username, GroupName := .User }).1 with
    | some e => simp [hg, htr]
    | none => simp [hg, htr]
  · simp [cognitoAuth.SignUp, h, he]
  · simp [cognitoAuth.SignUp, h, hn]
  · simp only [cognitoAuth.SignUp, h]
    cases hg : (c.AddGroup { Username := input.Username, GroupName := .User }).1 with
    | some e => simp [hg, htr]
    | none => simp [hg, htr]

/-- Witness for C2: identity creation succeeds and group assignment fails
with an unclassified signal — SignUp reports that failure and deletes
nothing; with the all-success client, SignUp succeeds. -/
theorem C2_signup_group_assignment_no_rollback_witness :
    ProviderCall.adminAddUserToGroup
        { userPoolId := "pool-1", username := "u", groupName := "User" }
      ∈ ((mkAuth (groupFailClient "boom")).SignUp
          { Username := "u", Password := "p", Name := "n" }).2 ∧
    ((mkAuth (groupFailClient "boom")).SignUp
        { Username := "u", Password := "p", Name := "n" }).1
      = .ret none (some (.raw "boom")) ∧
    (∀ u, ProviderCall.adminDeleteUser u ∉
      ((mkAuth (groupFailClient "boom")).SignUp
          { Username := "u", Password := "p", Name := "n" }).2) ∧
    ((mkAuth okClient).SignUp { Username := "u", Password := "p", Name := "n" }).1
      = .ret (some { IsConfirmed := true }) none :=
  ⟨(C2_signup_group_assignment_no_rollback (mkAuth (groupFailClient "boom"))
      { Username := "u", Password := "p", Name := "n" } { userConfirmed := true } rfl).1,
   (C2_signup_group_assignment_no_rollback (mkAuth (groupFailClient "boom"))
      { Username := "u", Password := "p", Name := "n" } { userConfirmed := true } rfl).2.1
      (.raw "boom") (by decide),
   (C2_signup_group_assignment_no_rollback (mkAuth (groupFailClient "boom"))
      { Username := "u", Password := "p", Name := "n" } { userConfirmed := true } rfl).2.2.2,
   (C2_signup_group_assignment_no_rollback (mkAuth okClient)
      { Username := "u", Password := "p", Name := "n" } { userConfirmed := true } rfl).2.2.1
      (by decide)⟩

/-- **C7.** ValidateToken wraps the verifier's structured claims exactly —
email, subject id and groups pass through unchanged — and propagates a
verifier failure unchanged. -/
theorem C7_validate_token_roundtrip (c : cognitoAuth) (token : String) :
    (∀ claims, c.parseJWT token = .ok claims →
      c.ValidateToken token
        = .ret (some { Email := claims.Email, Id := claims.Sub
                     , UserGroups := claims.UserGroups }) none) ∧
    (∀ e, c.parseJWT token = .error e → c.ValidateToken token = .ret none (some e)) := by
  constructor <;> intro x hx <;> simp [cognitoAuth.ValidateToken, hx]

/-- A service instance whose verifier accepts exactly the token "good",
yielding claims with groups {A, B}. -/
def verifierAuth : cognitoAuth :=
  { mkAuth okClient with
      parseJWT := fun t =>
        if t = "good" then .ok { Email := "e@x.com", Sub := "sub-1", UserGroups := ["A", "B"] }
        else .error (.apiError 401 "Invalid token") }

/-- Witness for C7: a token carrying groups {A, B} validates to claims
with exactly those groups, and a failing token returns the verifier's
failure. -/
theorem C7_validate_token_roundtrip_witness :
    verifierAuth.ValidateToken "good"
      = .ret (some { Email := "e@x.com", Id := "sub-1", UserGroups := ["A", "B"] }) none ∧
    verifierAuth.ValidateToken "bad" = .ret none (some (.apiError 401 "Invalid token")) :=
  ⟨(C7_validate_token_roundtrip verifierAuth "good").1
      { Email := "e@x.com", Sub := "sub-1", UserGroups := ["A", "B"] } rfl,
   (C7_validate_token_roundtrip verifierAuth "bad").2
      (.apiError 401 "Invalid token") rfl⟩

/-- **C10.** On provider success, GetUser reports as display name the
value of the first element of the provider's attribute list, whatever
attribute it is; the success path is total exactly when the response has a
present username, a non-empty attribute list and a present first value —
in every other case the code dereferences nil (or indexes an empty slice)
and panics. -/
theorem C10_getuser_first_attribute
    (c : cognitoAuth) (input : GetUserInput) (resp : GetUserResponse)
    (h : c.client.getUser { accessToken := input.AccessToken } = .ok resp) :
    (∀ u attr rest v, resp.username = some u → resp.userAttributes = attr :: rest →
      attr.value = some v →
      (c.GetUser input).1 = .ret (some { Username := u, Name := v }) none) ∧
    ((resp.username = none ∨ resp.userAttributes = [] ∨
      ∃ attr rest, resp.userAttributes = attr :: rest ∧ attr.value = none) →
      (c.GetUser input).1 = .panicked) := by
  constructor
  · intro u attr rest v hu hl hv
    simp [cognitoAuth.GetUser, h, hu, hl, hv]
  · rintro (hu | hl | ⟨attr, rest, hl, hv⟩)
    · simp [cognitoAuth.GetUser, h, hu]
    · cases hu : resp.username with
      | none => simp [cognitoAuth.GetUser, h, hu]
      | some u => simp [cognitoAuth.GetUser, h, hu, hl]
    · cases hu : resp.username with
      | none => simp [cognitoAuth.GetUser, h, hu]
      | some u => simp [cognitoAuth.GetUser, h, hu, hl, hv]

/-- A client whose GetUser response has a present username but an empty
attribute list. -/
def noAttrClient : CognitoClient :=
  { okClient with getUser := fun _ => .ok { username := some "user1", userAttributes := [] } }

/-- Witness for C10: the all-success client yields the first attribute's
value as the name; the empty-attribute-list client panics. -/
theorem C10_getuser_first_attribute_witness :
    ((mkAuth okClient).GetUser { AccessToken := "tok" }).1
      = .ret (some { Username := "user1", Name := "user1@example.com" }) none ∧
    ((mkAuth noAttrClient).GetUser { AccessToken := "tok" }).1 = .panicked :=
  ⟨(C10_getuser_first_attribute (mkAuth okClient) { AccessToken := "tok" }
      { username := some "user1"
      , userAttributes := [{ name := some "email", value := some "user1@example.com" }] }
      rfl).1
      "user1" { name := some "email", value := some "user1@example.com" } []
      "user1@example.com" rfl rfl rfl,
   (C10_getuser_first_attribute (mkAuth noAttrClient) { AccessToken := "tok" }
      { username := some "user1", userAttributes := [] } rfl).2
      (Or.inr (Or.inl rfl))⟩

/-- **C3 counterexample.** The claim fails for AddGroup: its input has no
lower-casing constructor and the operation passes the username verbatim,
so AddGroup with username "Alice" issues a provider call carrying "Alice",
which is not lower-cased. -/
theorem C3_addgroup_username_not_lowercased :
    ((mkAuth okClient).AddGroup { Username := "Alice", GroupName := .User }).2
      = [ProviderCall.adminAddUserToGroup
          { userPoolId := "pool-1", username := "Alice", groupName := "User" }] ∧
    strToLower "Alice" ≠ "Alice" := by
  constructor
  · decide
  · decide

/-- **C3 amended.** The Login, SignUp, ConfirmSignUp and CreateAdmin input
constructors lower-case the username, and every operation passes its
input's username to the provider verbatim; AddGroupInput and
RemoveGroupInput have no constructor, so AddGroup and RemoveGroup use the
username exactly as the caller supplies it (lower-cased only when the
caller already normalized it). -/
theorem C3_username_lowercasing_amended :
    (∀ u p, (NewLoginInput u p).Username = strToLower u) ∧
    (∀ u p n, (NewSignUpInput u p n).Username = strToLower u) ∧
    (∀ u code, (NewConfirmSignUpInput u code).Username = strToLower u) ∧
    (∀ u p n, (NewCreateAdminInput u p n).Username = strToLower u) ∧
    (∀ (c : cognitoAuth) (input : LoginInput),
      (c.loginRequest input).authParameters
        = [("USERNAME", input.Username), ("PASSWORD", input.Password)]) ∧
    (∀ (c : cognitoAuth) (input : SignUpInput),
      (c.signUpRequest input).username = input.Username) ∧
    (∀ (c : cognitoAuth) (input : ConfirmSignUpInput),
      (c.confirmSignUpRequest input).username = input.Username) ∧
    (∀ (c : cognitoAuth) (input : CreateAdminInput),
      (c.createAdminRequest input).username = input.Username) ∧
    (∀ (c : cognitoAuth) (input : AddGroupInput),
      (c.AddGroup input).2 = [.adminAddUserToGroup (c.addGroupRequest input)] ∧
      (c.addGroupRequest input).username = input.Username) ∧
    (∀ (c : cognitoAuth) (input : RemoveGroupInput),
      (c.RemoveGroup input).2 = [.adminRemoveUserFromGroup (c.removeGroupRequest input)] ∧
      (c.removeGroupRequest input).username = input.Username) :=
  ⟨fun _ _ => rfl, fun _ _ _ => rfl, fun _ _ => rfl, fun _ _ _ => rfl,
   fun _ _ => rfl, fun _ _ => rfl, fun _ _ => rfl, fun _ _ => rfl,
   fun c input => ⟨cognitoAuth.AddGroup_trace c input, rfl⟩,
   fun c input => ⟨cognitoAuth.RemoveGroup_trace c input, rfl⟩⟩

/-- **C4.** When the provider answers Login with a forced-password-change
challenge (a challenge response: no authentication result), the code
dereferences the nil authentication result and panics — it does not return
an error.  The source marks this with the comment `TODO: fix error when
user status === force change password`. -/
theorem C4_login_force_change_password_panics :
    ((mkAuth challengeClient).Login { Username := "u", Password := "p" }).1
      = Outcome.panicked := by
  decide

/-- **C1.** For every operation, a provider failure whose signal matches
none of that operation's allow-listed exception substrings is returned as
the raw error — which reaches the caller as an Internal-class failure and
is never one of the specific typed domain errors.  For the compound
operations (SignUp, CreateAdmin) this covers both the creation call and
the subsequent group-assignment call. -/
theorem C1_unclassified_failures_internal (c : cognitoAuth) :
    (∀ s, (GoError.raw s).statusClass = .Internal ∧ (GoError.raw s).isTyped = false) ∧
    (∀ (input : LoginInput) s,
      c.client.initiateAuth (c.loginRequest input) = .error s →
      strContains s "NotAuthorizedException" = false →
      strContains s "PasswordResetRequiredException" = false →
      strContains s "UserNotConfirmedException" = false →
      (c.Login input).1 = .ret none (some (.raw s))) ∧
    (∀ (input : SignUpInput) s,
      c.client.signUp (c.signUpRequest input) = .error s →
      strContains s "UsernameExistsException" = false →
      (c.SignUp input).1 = .ret none (some (.raw s))) ∧
    (∀ (input : SignUpInput) sout s,
      c.client.signUp (c.signUpRequest input) = .ok sout →
      c.client.adminAddUserToGroup
        (c.addGroupRequest { Username := input.Username, GroupName := .User }) = .error s →
      strContains s "UserNotFoundException" = false →
      strContains s "ResourceNotFoundException" = false →
      (c.SignUp input).1 = .ret none (some (.raw s))) ∧
    (∀ (input : ConfirmSignUpInput) s,
      c.client.confirmSignUp (c.confirmSignUpRequest input) = .error s →
      strContains s "CodeMismatchException" = false →
      strContains s "ExpiredCodeException" = false →
      (c.ConfirmSignUp input).1 = .ret none (some (.raw s))) ∧
    (∀ (input : GetUserInput) s,
      c.client.getUser { accessToken := input.AccessToken } = .error s →
      strContains s "NotAuthorizedException" = false →
      strContains s "UserNotFoundException" = false →
      (c.GetUser input).1 = .ret none (some (.raw s))) ∧
    (∀ (input : RefreshTokenInput) s,
      c.client.initiateAuth (c.refreshRequest input) = .error s →
      strContains s "NotAuthorizedException" = false →
      (c.RefreshToken input).1 = .ret none (some (.raw s))) ∧
    (∀ (input : AddGroupInput) s,
      c.client.adminAddUserToGroup (c.addGroupRequest input) = .error s →
      strContains s "UserNotFoundException" = false →
      strContains s "ResourceNotFoundException" = false →
      (c.AddGroup input).1 = some (.raw s)) ∧
    (∀ (input : RemoveGroupInput) s,
      c.client.adminRemoveUserFromGroup (c.removeGroupRequest input) = .error s →
      strContains s "UserNotFoundException" = false →
      strContains s "ResourceNotFoundException" = false →
      (c.RemoveGroup input).1 = some (.raw s)) ∧
    (∀ (input : CreateAdminInput) s,
      c.client.adminCreateUser (c.createAdminRequest input) = .error s →
      strContains s "UsernameExistsException" = false →
      (c.CreateAdmin input).1 = .ret none (some (.raw s))) ∧
    (∀ (input : CreateAdminInput) s,
      (∃ u, c.client.adminCreateUser (c.createAdminRequest input) = .ok u) →
      c.client.adminAddUserToGroup
        (c.addGroupRequest { Username := input.Username, GroupName := .Admin }) = .error s →
      strContains s "UserNotFoundException" = false →
      strContains s "ResourceNotFoundException" = false →
      (c.CreateAdmin input).1 = .ret none (some (.raw s))) := by
  refine ⟨fun s => ⟨rfl, rfl⟩, ?_, ?_, ?_, ?_, ?_, ?_, ?_, ?_, ?_, ?_⟩
  · intro input s h h1 h2 h3
    simp [cognitoAuth.Login, h, h1, h2, h3]
  · intro input s h h1
    simp [cognitoAuth.SignUp, h, h1]
  · intro input sout s h hg h1 h2
    have hgr : (c.AddGroup { Username := input.Username, GroupName := .User }).1
        = some (.raw s) := by
      simp [cognitoAuth.AddGroup, hg, h1, h2]
    simp [cognitoAuth.SignUp, h, hgr]
  · intro input s h h1 h2
    simp [cognitoAuth.ConfirmSignUp, h, h1, h2]
  · intro input s h h1 h2
    simp [cognitoAuth.GetUser, h, h1, h2]
  · intro input s h h1
    simp [cognitoAuth.RefreshToken, h, h1]
  · intro input s h h1 h2
    simp [cognitoAuth.AddGroup, h, h1, h2]
  · intro input s h h1 h2
    simp [cognitoAuth.RemoveGroup, h, h1, h2]
  · intro input s h h1
    simp [cognitoAuth.CreateAdmin, h, h1]
  · intro input s hok hg h1 h2
    obtain ⟨u, h⟩ := hok
    have hgr : (c.AddGroup { Username := input.Username, GroupName := .Admin }).1
        = some (.raw s) := by
      simp [cognitoAuth.AddGroup, hg, h1, h2]
    simp [cognitoAuth.CreateAdmin, h, hgr]

/-- Witness for C1: the unclassified signal "SomeOtherException: boom"
degrades to the raw (Internal-class) error on every operation, including
both phases of the compound ones. -/
theorem C1_unclassified_failures_internal_witness :
    (GoError.raw "SomeOtherException: boom").statusClass = .Internal ∧
    ((mkAuth (failingClient "SomeOtherException: boom")).Login
        { Username := "u", Password := "p" }).1
      = .ret none (some (.raw "SomeOtherException: boom")) ∧
    ((mkAuth (failingClient "SomeOtherException: boom")).SignUp
        { Username := "u", Password := "p", Name := "n" }).1
      = .ret none (some (.raw "SomeOtherException: boom")) ∧
    ((mkAuth (groupFailClient "SomeOtherException: boom")).SignUp
        { Username := "u", Password := "p", Name := "n" }).1
      = .ret none (some (.raw "SomeOtherException: boom")) ∧
    ((mkAuth (failingClient "SomeOtherException: boom")).ConfirmSignUp
        { Username := "u", Code := "123" }).1
      = .ret none (some (.raw "SomeOtherException: boom")) ∧
    ((mkAuth (failingClient "SomeOtherException: boom")).GetUser
        { AccessToken := "tok" }).1
      = .ret none (some (.raw "SomeOtherException: boom")) ∧
    ((mkAuth (failingClient "SomeOtherException: boom")).RefreshToken
        { RefreshToken := "r" }).1
      = .ret none (some (.raw "SomeOtherException: boom")) ∧
    ((mkAuth (failingClient "SomeOtherException: boom")).AddGroup
        { Username := "u", GroupName := .User }).1
      = some (.raw "SomeOtherException: boom") ∧
    ((mkAuth (failingClient "SomeOtherException: boom")).RemoveGroup
        { Username := "u", GroupName := .Admin }).1
      = some (.raw "SomeOtherException: boom") ∧
    ((mkAuth (failingClient "SomeOtherException: boom")).CreateAdmin
        { Password := "p", Name := "n", Username := "u" }).1
      = .ret none (some (.raw "SomeOtherException: boom")) ∧
    ((mkAuth (groupFailClient "SomeOtherException: boom")).CreateAdmin
        { Password := "p", Name := "n", Username := "u" }).1
      = .ret none (some (.raw "SomeOtherException: boom")) :=
  ⟨((C1_unclassified_failures_internal (mkAuth (failingClient "SomeOtherException: boom"))).1
      "SomeOtherException: boom").1,
   (C1_unclassified_failures_internal (mkAuth (failingClient "SomeOtherException: boom"))).2.1
      { Username := "u", Password := "p" } _ rfl (by decide) (by decide) (by decide),
   (C1_unclassified_failures_internal (mkAuth (failingClient "SomeOtherException: boom"))).2.2.1
      { Username := "u", Password := "p", Name := "n" } _ rfl (by decide),
   (C1_unclassified_failures_internal (mkAuth (groupFailClient "SomeOtherException: boom"))).2.2.2.1
      { Username := "u", Password := "p", Name := "n" } { userConfirmed := true } _ rfl rfl
      (by decide) (by decide),
   (C1_unclassified_failures_internal (mkAuth (failingClient "SomeOtherException: boom"))).2.2.2.2.1
      { Username := "u", Code := "123" } _ rfl (by decide) (by decide),
   (C1_unclassified_failures_internal
      (mkAuth (failingClient "SomeOtherException: boom"))).2.2.2.2.2.1
      { AccessToken := "tok" } _ rfl (by decide) (by decide),
   (C1_unclassified_failures_internal
      (mkAuth (failingClient "SomeOtherException: boom"))).2.2.2.2.2.2.1
      { RefreshToken := "r" } _ rfl (by decide),
   (C1_unclassified_failures_internal
      (mkAuth (failingClient "SomeOtherException: boom"))).2.2.2.2.2.2.2.1
      { Username := "u", GroupName := .User } _ rfl (by decide) (by decide),
   (C1_unclassified_failures_internal
      (mkAuth (failingClient "SomeOtherException: boom"))).2.2.2.2.2.2.2.2.1
      { Username := "u", GroupName := .Admin } _ rfl (by decide) (by decide),
   (C1_unclassified_failures_internal
      (mkAuth (failingClient "SomeOtherException: boom"))).2.2.2.2.2.2.2.2.2.1
      { Password := "p", Name := "n", Username := "u" } _ rfl (by decide),
   (C1_unclassified_failures_internal
      (mkAuth (groupFailClient "SomeOtherException: boom"))).2.2.2.2.2.2.2.2.2.2
      { Password := "p", Name := "n", Username := "u" } _ ⟨(), rfl⟩ rfl
      (by decide) (by decide)⟩

end AuthCognito
